import Mathlib

/-!
Verification of the travel-planner aggregation / deduplication / combination
engine, modelled shallowly from the repository's Python sources.

Conventions of the embedding:
* Monetary amounts, ratings and scores are modelled as exact rationals (`ℚ`);
  the Python code uses IEEE doubles, whose formulas we transcribe verbatim.
* `datetime` values are irrelevant to every property below; they are carried
  as abstract `Int` timestamps (minutes) so the records keep their shape.
* Python's `list.sort(key=...)` is a stable sort; a stable sort's output is
  uniquely determined by the comparison and the input order, so it is modelled
  by `List.insertionSort`, which Mathlib shows to be stable.
* Python `str.lower()` is modelled by lowercasing each character.
* A Python function that can raise is modelled with `Except String`.
-/

namespace TravelPlanner

/-- Travel class enumeration, from `app/schemas/travel.py` (`TravelClass`). -/
inductive TravelClass where
  | economy
  | premium_economy
  | business
  | first
deriving DecidableEq, Repr

/-- Hotel category enumeration, from `app/schemas/travel.py` (`HotelCategory`). -/
inductive HotelCategory where
  | budget
  | standard
  | luxury
  | resort
deriving DecidableEq, Repr

/-- Flight offer record, from `app/schemas/travel.py` (`FlightOption`). -/
structure FlightOption where
  id : String
  airline : String
  flight_number : String
  departure_time : Int
  arrival_time : Int
  duration : String
  price : ℚ
  travel_class : TravelClass
  layovers : List String
  source : String
  booking_url : Option String
deriving DecidableEq, Repr

/-- Hotel offer record, from `app/schemas/travel.py` (`HotelOption`). -/
structure HotelOption where
  id : String
  name : String
  address : String
  price_per_night : ℚ
  total_price : ℚ
  rating : ℚ
  amenities : List String
  category : HotelCategory
  source : String
  booking_url : Option String
  images : List String
deriving DecidableEq, Repr

/-- Python `str.lower()`, modelled as per-character lowercasing. -/
def pyLower (s : String) : String :=
  ⟨s.data.map Char.toLower⟩

/-- Grouping key used by `TravelService._deduplicate_flights`:
the pair `(flight.airline, flight.flight_number)`. -/
def flightKey (f : FlightOption) : String × String :=
  (f.airline, f.flight_number)

/-- Grouping key used by `TravelService._deduplicate_hotels`:
the pair `(hotel.name.lower(), hotel.address.lower())`. -/
def hotelKey (h : HotelOption) : String × String :=
  (pyLower h.name, pyLower h.address)

/-- One pass of the Python dedup loop: walk the list, keep an element whose
key has not been seen, remember its key.  The Python `seen` set is modelled
as the list of keys already added. -/
def dedupByAux {α κ : Type} [DecidableEq κ] (key : α → κ) (seen : List κ) :
    List α → List α
  | [] => []
  | x :: xs =>
    if key x ∈ seen then dedupByAux key seen xs
    else x :: dedupByAux key (key x :: seen) xs

/-- `TravelService._deduplicate_flights` from `app/services/travel_service.py`:
keeps the first-seen flight of each `(airline, flight_number)` group. -/
def deduplicate_flights (flights : List FlightOption) : List FlightOption :=
  dedupByAux flightKey [] flights

/-- `TravelService._deduplicate_hotels` from `app/services/travel_service.py`:
keeps the first-seen hotel of each `(name.lower(), address.lower())` group. -/
def deduplicate_hotels (hotels : List HotelOption) : List HotelOption :=
  dedupByAux hotelKey [] hotels

/-- Comparison used by `sorted(flight_options, key=lambda x: x.price)`. -/
def flightPriceLE (a b : FlightOption) : Prop :=
  a.price ≤ b.price

instance : DecidableRel flightPriceLE := fun a b =>
  inferInstanceAs (Decidable (a.price ≤ b.price))

instance : IsTotal FlightOption flightPriceLE :=
  ⟨fun a b => le_total a.price b.price⟩

instance : IsTrans FlightOption flightPriceLE :=
  ⟨fun _ _ _ h1 h2 => le_trans h1 h2⟩

/-- Comparison used by `sorted(hotel_options, key=lambda x: x.total_price)`. -/
def hotelPriceLE (a b : HotelOption) : Prop :=
  a.total_price ≤ b.total_price

instance : DecidableRel hotelPriceLE := fun a b =>
  inferInstanceAs (Decidable (a.total_price ≤ b.total_price))

instance : IsTotal HotelOption hotelPriceLE :=
  ⟨fun a b => le_total a.total_price b.total_price⟩

instance : IsTrans HotelOption hotelPriceLE :=
  ⟨fun _ _ _ h1 h2 => le_trans h1 h2⟩

/-- Derived record built for each feasible flight+hotel pairing inside
`BudgetOptimizationAgent._analyze_options` (`app/agents/budget_agent.py`). -/
structure Combination where
  flight : FlightOption
  hotel : HotelOption
  total_cost : ℚ
  remaining_budget : ℚ
  value_score : ℚ
  budget_utilization : ℚ
deriving DecidableEq, Repr

/-- `BudgetOptimizationAgent._calculate_value_score`: Python adds a direct
flight bonus when `not flight.layovers`, i.e. when the layover list is empty. -/
def calculate_value_score (flight : FlightOption) (hotel : HotelOption)
    (remaining_budget : ℚ) : ℚ :=
  let flight_score : ℚ := 100 - (flight.price / 1000) * 50
  let flight_score : ℚ :=
    if flight.layovers.isEmpty then flight_score + 20 else flight_score
  let hotel_score : ℚ := hotel.rating * 20
  let hotel_score : ℚ := hotel_score + (hotel.amenities.length : ℚ) * 2
  let budget_score : ℚ := min (remaining_budget / 100) 10
  (flight_score + hotel_score + budget_score) / 3

/-- One entry of `valid_combinations` exactly as `_analyze_options` builds it. -/
def mkCombination (budget : ℚ) (f : FlightOption) (h : HotelOption) : Combination :=
  let total_cost := f.price + h.total_price
  let remaining_budget := budget - total_cost
  { flight := f
    hotel := h
    total_cost := total_cost
    remaining_budget := remaining_budget
    value_score := calculate_value_score f h remaining_budget
    budget_utilization := total_cost / budget * 100 }

/-- `sorted_flights` of `_analyze_options`.  Python's `sorted` is stable, and a
stable sort is uniquely determined by comparison and input order, so it is
modelled by the stable `List.insertionSort`. -/
def sortFlightsByPrice (fs : List FlightOption) : List FlightOption :=
  List.insertionSort flightPriceLE fs

/-- `sorted_hotels` of `_analyze_options`. -/
def sortHotelsByPrice (hs : List HotelOption) : List HotelOption :=
  List.insertionSort hotelPriceLE hs

/-- The nested loops of `_analyze_options` (lines 106-120): every pair of a
price-sorted flight and a price-sorted hotel whose combined cost fits the
budget yields one combination, in enumeration order. -/
def valid_combinations (budget : ℚ) (flight_options : List FlightOption)
    (hotel_options : List HotelOption) : List Combination :=
  (sortFlightsByPrice flight_options).flatMap fun f =>
    (sortHotelsByPrice hotel_options).filterMap fun h =>
      if f.price + h.total_price ≤ budget then some (mkCombination budget f h)
      else none

/-- Comparison of `valid_combinations.sort(key=lambda x: x["value_score"],
reverse=True)`: descending value score; Python's sort keeps the original
order of equal keys, as the stable `insertionSort` with this relation does. -/
def scoreDescLE (a b : Combination) : Prop :=
  b.value_score ≤ a.value_score

instance : DecidableRel scoreDescLE := fun a b =>
  inferInstanceAs (Decidable (b.value_score ≤ a.value_score))

instance : IsTotal Combination scoreDescLE :=
  ⟨fun a b => le_total b.value_score a.value_score⟩

instance : IsTrans Combination scoreDescLE :=
  ⟨fun _ _ _ h1 h2 => le_trans h2 h1⟩

/-- The combination list of `_analyze_options` after its in-place sort. -/
def sorted_combinations (budget : ℚ) (flight_options : List FlightOption)
    (hotel_options : List HotelOption) : List Combination :=
  List.insertionSort scoreDescLE (valid_combinations budget flight_options hotel_options)

/-- Recommendation string appended when no combination fits the budget. -/
def msgNoCombos : String :=
  "No combinations found within budget. Consider increasing budget or adjusting preferences."

/-- Recommendation string for budget utilization below 70. -/
def msgUpgrade : String :=
  "Consider upgrading to higher quality options - you have budget flexibility."

/-- Recommendation string for remaining budget above 200. -/
def msgAllocate : String :=
  "Allocate remaining budget for activities, dining, or travel insurance."

/-- Recommendation string for fewer than 3 combinations. -/
def msgLimited : String :=
  "Limited options within budget. Consider flexible dates or alternative destinations."

/-- First fixed general-advice string. -/
def msgBookAhead : String :=
  "Book flights 2-3 weeks in advance for best prices"

/-- Second fixed general-advice string. -/
def msgPackageDeals : String :=
  "Consider package deals for additional savings"

/-- Third fixed general-advice string. -/
def msgSeasonal : String :=
  "Check for seasonal discounts and promotions"

/-- `BudgetOptimizationAgent._generate_recommendations`, transcribing the
sequence of appends on the Python `recommendations` list.  The `budget`
parameter is accepted and unused exactly as in the source. -/
def generate_recommendations (combinations : List Combination) (budget : ℚ) :
    List String :=
  match combinations with
  | [] => [msgNoCombos]
  | best :: _ =>
    let recs : List String := []
    let recs := if best.budget_utilization < 70 then recs ++ [msgUpgrade] else recs
    let recs := if best.remaining_budget > 200 then recs ++ [msgAllocate] else recs
    let recs := if combinations.length < 3 then recs ++ [msgLimited] else recs
    recs ++ [msgBookAhead, msgPackageDeals, msgSeasonal]

/-- `BudgetOptimizationAgent._calculate_budget_breakdown`, as the ordered
key/value pairs of the Python dictionary literal. -/
def calculate_budget_breakdown (total_budget : ℚ) : List (String × ℚ) :=
  [("flights", total_budget * 0.4),
   ("hotels", total_budget * 0.45),
   ("activities", total_budget * 0.10),
   ("contingency", total_budget * 0.05)]

/-- `TravelPlannerAgent._extract_budget_breakdown` (`app/agents/planner_agent.py`),
as the ordered key/value pairs of its dictionary literal; the free-text
`result` argument is ignored exactly as in the source. -/
def extract_budget_breakdown (result : String) (total_budget : ℚ) :
    List (String × ℚ) :=
  [("flights", total_budget * 0.4),
   ("hotels", total_budget * 0.45),
   ("activities", total_budget * 0.15)]

/-- Summary record of `BudgetOptimizationAgent._generate_cost_analysis`. -/
structure CostAnalysis where
  min_cost : ℚ
  max_cost : ℚ
  avg_cost : ℚ
  cost_range : ℚ
  budget_efficiency : ℚ
deriving DecidableEq, Repr

/-- `BudgetOptimizationAgent._generate_cost_analysis`; the Python function
returns a bare error dictionary for an empty list, modelled as `none`. -/
def generate_cost_analysis (combinations : List Combination) : Option CostAnalysis :=
  match combinations with
  | [] => none
  | c :: cs =>
    let costs := (c :: cs).map fun combo => combo.total_cost
    let mn := cs.foldl (fun a combo => min a combo.total_cost) c.total_cost
    let mx := cs.foldl (fun a combo => max a combo.total_cost) c.total_cost
    some { min_cost := mn
           max_cost := mx
           avg_cost := costs.sum / (costs.length : ℚ)
           cost_range := mx - mn
           budget_efficiency := ((c :: cs).length : ℚ) / 10 * 100 }

/-- The dictionary returned by `BudgetOptimizationAgent._analyze_options`.
Python sorts `valid_combinations` in place, so every field below reads the
sorted list. -/
structure AnalysisResult where
  total_combinations : ℕ
  top_combinations : List Combination
  budget_breakdown : List (String × ℚ)
  recommendations : List String
  cost_analysis : Option CostAnalysis
deriving DecidableEq, Repr

/-- `BudgetOptimizationAgent._analyze_options`.  The surrounding
`optimize_budget` only adds a free-text LLM task whose output is never parsed,
so the structured result is exactly this. -/
def analyze_options (budget : ℚ) (flight_options : List FlightOption)
    (hotel_options : List HotelOption) : AnalysisResult :=
  let combos := sorted_combinations budget flight_options hotel_options
  { total_combinations := combos.length
    top_combinations := combos.take 5
    budget_breakdown := calculate_budget_breakdown budget
    recommendations := generate_recommendations combos budget
    cost_analysis := generate_cost_analysis combos }

/-- The fields of the `TravelPlan` that `TravelService.create_travel_plan`
derives from the budget optimization. -/
structure TravelPlanCore where
  total_cost : ℚ
  budget_utilization : ℚ
  flight_options : List FlightOption
  hotel_options : List HotelOption
  recommendations : List String
deriving DecidableEq, Repr

/-- Core of `TravelService.create_travel_plan` (lines 65-83).  The source runs
`budget_optimization.get("top_combinations", [{}])[0]`: the key is always
present in the dictionary `_analyze_options` returns, so the `[{}]` default is
dead and indexing an empty `top_combinations` list raises `IndexError`, which
the surrounding handler logs and re-raises.  That error path is the
`Except.error` branch here. -/
def create_travel_plan_core (budget : ℚ) (flight_options : List FlightOption)
    (hotel_options : List HotelOption) : Except String TravelPlanCore :=
  let optimization := analyze_options budget flight_options hotel_options
  match optimization.top_combinations with
  | [] => Except.error "IndexError: list index out of range"
  | best :: _ =>
    Except.ok
      { total_cost := best.total_cost
        budget_utilization := best.total_cost / budget * 100
        flight_options := flight_options
        hotel_options := hotel_options
        recommendations := optimization.recommendations }

/-- Offers the Amadeus client fabricates in `_get_mock_flights` when its HTTP
call fails; `departure_date` is a day number, timestamps are minutes. -/
def amadeus_mock_flights (departure_date : Int) (travelers : ℕ)
    (tc : TravelClass) : List FlightOption :=
  [{ id := "amadeus_flight_1"
     airline := "American Airlines"
     flight_number := "AA1234"
     departure_time := departure_date * 1440 + 8 * 60
     arrival_time := departure_date * 1440 + 13 * 60 + 30
     duration := "5h 30m"
     price := 450 * (travelers : ℚ)
     travel_class := tc
     layovers := ["Chicago"]
     source := "amadeus"
     booking_url := some "https://amadeus.com/book/AA1234" },
   { id := "amadeus_flight_2"
     airline := "Delta Airlines"
     flight_number := "DL5678"
     departure_time := departure_date * 1440 + 8 * 60
     arrival_time := departure_date * 1440 + 13 * 60 + 30
     duration := "4h 45m"
     price := 520 * (travelers : ℚ)
     travel_class := tc
     layovers := []
     source := "amadeus"
     booking_url := some "https://amadeus.com/book/DL5678" }]

/-- `AmadeusFlightClient.search_flights`: a successful API fetch returns the
parsed offers; any exception is caught and replaced by the mock fixtures
("Return mock data for testing", lines 92-95 of `flight_clients.py`). -/
def amadeus_search_flights (fetched : Except String (List FlightOption))
    (departure_date : Int) (travelers : ℕ) (tc : TravelClass) : List FlightOption :=
  match fetched with
  | Except.ok offers => offers
  | Except.error _ => amadeus_mock_flights departure_date travelers tc

/-- Offers of `SkyscannerFlightClient._get_mock_flights`. -/
def skyscanner_mock_flights (departure_date : Int) (travelers : ℕ)
    (tc : TravelClass) : List FlightOption :=
  [{ id := "skyscanner_flight_1"
     airline := "United Airlines"
     flight_number := "UA9012"
     departure_time := departure_date * 1440 + 10 * 60
     arrival_time := departure_date * 1440 + 16 * 60 + 15
     duration := "6h 15m"
     price := 480 * (travelers : ℚ)
     travel_class := tc
     layovers := ["Denver"]
     source := "skyscanner"
     booking_url := some "https://skyscanner.com/book/UA9012" }]

/-- `SkyscannerFlightClient.search_flights` is a pure mock in the source: its
body returns the fixtures and its handler cannot trigger. -/
def skyscanner_search_flights (departure_date : Int) (travelers : ℕ)
    (tc : TravelClass) : List FlightOption :=
  skyscanner_mock_flights departure_date travelers tc

/-- The merge loop shared by both `search_all_providers` implementations:
`asyncio.gather(..., return_exceptions=True)` yields one slot per registered
provider in registration order, and the loop extends the accumulator with
each slot that is a list, skipping slots holding exceptions. -/
def collectResults {α : Type} (results : List (Except String (List α))) : List α :=
  results.flatMap fun r =>
    match r with
    | Except.ok offers => offers
    | Except.error _ => []

/-- `FlightService.search_all_providers` (lines 296-310): merge the per-task
slots in registration order, then sort the merged list by price in place. -/
def flight_search_all_providers
    (results : List (Except String (List FlightOption))) : List FlightOption :=
  List.insertionSort flightPriceLE (collectResults results)

/-- `HotelService.search_all_providers` (lines 312-326 of `hotel_clients.py`):
same merge, sorted by `total_price`. -/
def hotel_search_all_providers
    (results : List (Except String (List HotelOption))) : List HotelOption :=
  List.insertionSort hotelPriceLE (collectResults results)

/-- `FlightService.search_all_providers` specialised to its two registered
clients, with the Amadeus HTTP outcome abstracted as an `Except`. -/
def flight_service_search (amadeusFetch : Except String (List FlightOption))
    (departure_date : Int) (travelers : ℕ) (tc : TravelClass) : List FlightOption :=
  flight_search_all_providers
    [Except.ok (amadeus_search_flights amadeusFetch departure_date travelers tc),
     Except.ok (skyscanner_search_flights departure_date travelers tc)]

/-- `TravelService._search_flights` after both sources returned: concatenate
the agent's options with the external ones, deduplicate, keep the first 10. -/
def search_flights_core (agent_options external_options : List FlightOption) :
    List FlightOption :=
  (deduplicate_flights (agent_options ++ external_options)).take 10

/-- `TravelService._search_hotels` after both sources returned. -/
def search_hotels_core (agent_options external_options : List HotelOption) :
    List HotelOption :=
  (deduplicate_hotels (agent_options ++ external_options)).take 10

/-- Value-score formula exactly as the spec writes it in section 4.4, for
comparison with the transcription of the source. -/
def spec_value_score (f : FlightOption) (h : HotelOption) (r : ℚ) : ℚ :=
  ((100 - (f.price / 1000) * 50 + (if f.layovers = [] then 20 else 0)) +
      (h.rating * 20 + (h.amenities.length : ℚ) * 2) +
      min (r / 100) 10) / 3

/-- Ranking order claimed by the spec: descending `valueScore`, ties by
ascending `totalCost`, then by ascending flight `id`. -/
def specCombinationOrder (a b : Combination) : Prop :=
  b.value_score < a.value_score ∨
    (a.value_score = b.value_score ∧
      (a.total_cost < b.total_cost ∨
        (a.total_cost = b.total_cost ∧ ¬ b.flight.id < a.flight.id)))

/-- Concrete offer: first-seen AA1234 at price 450 (provider 1). -/
def dupFlightFirst : FlightOption :=
  { id := "prov1_aa1234"
    airline := "American Airlines"
    flight_number := "AA1234"
    departure_time := 0
    arrival_time := 0
    duration := "5h 30m"
    price := 450
    travel_class := TravelClass.economy
    layovers := ["Chicago"]
    source := "provider1"
    booking_url := none }

/-- Concrete offer: later AA1234 duplicate at the lower price 430 (provider 2). -/
def dupFlightCheaper : FlightOption :=
  { id := "prov2_aa1234"
    airline := "American Airlines"
    flight_number := "AA1234"
    departure_time := 0
    arrival_time := 0
    duration := "5h 30m"
    price := 430
    travel_class := TravelClass.economy
    layovers := ["Chicago"]
    source := "provider2"
    booking_url := none }

/-- Concrete flight for the ranking counterexample: price 100, one layover. -/
def cxFlightA : FlightOption :=
  { id := "f1"
    airline := "A1"
    flight_number := "N1"
    departure_time := 0
    arrival_time := 0
    duration := "2h"
    price := 100
    travel_class := TravelClass.economy
    layovers := ["ORD"]
    source := "p1"
    booking_url := none }

/-- Concrete flight for the ranking counterexample: price 140, one layover. -/
def cxFlightB : FlightOption :=
  { id := "f2"
    airline := "A2"
    flight_number := "N2"
    departure_time := 0
    arrival_time := 0
    duration := "2h"
    price := 140
    travel_class := TravelClass.economy
    layovers := ["ORD"]
    source := "p2"
    booking_url := none }

/-- Concrete hotel for the ranking counterexample: total price 100, rating 4,
one amenity. -/
def cxHotelA : HotelOption :=
  { id := "h1"
    name := "Hotel A"
    address := "1 A Street"
    price_per_night := 50
    total_price := 100
    rating := 4
    amenities := ["WiFi"]
    category := HotelCategory.standard
    source := "p1"
    booking_url := none
    images := [] }

/-- Concrete hotel for the ranking counterexample: total price 200, rating 4,
no amenities. -/
def cxHotelB : HotelOption :=
  { id := "h2"
    name := "Hotel B"
    address := "2 B Street"
    price_per_night := 100
    total_price := 200
    rating := 4
    amenities := []
    category := HotelCategory.standard
    source := "p2"
    booking_url := none
    images := [] }

/-- Concrete flight for the empty-budget scenario: price 450. -/
def c5Flight : FlightOption :=
  { id := "flight_1"
    airline := "American Airlines"
    flight_number := "AA1234"
    departure_time := 0
    arrival_time := 0
    duration := "5h 30m"
    price := 450
    travel_class := TravelClass.economy
    layovers := ["Chicago"]
    source := "amadeus"
    booking_url := none }

/-- Concrete hotel for the empty-budget scenario: total price 595. -/
def c5Hotel : HotelOption :=
  { id := "hotel_1"
    name := "Comfort Inn Central"
    address := "456 Business District"
    price_per_night := 85
    total_price := 595
    rating := 4
    amenities := ["WiFi"]
    category := HotelCategory.standard
    source := "expedia"
    booking_url := none
    images := [] }

/-- Concrete offer of the first registered provider: price 500. -/
def cxProvAFlight : FlightOption :=
  { id := "pa1"
    airline := "PA"
    flight_number := "PA100"
    departure_time := 0
    arrival_time := 0
    duration := "3h"
    price := 500
    travel_class := TravelClass.economy
    layovers := []
    source := "providerA"
    booking_url := none }

/-- Concrete offer of the second registered provider: price 300. -/
def cxProvBFlight : FlightOption :=
  { id := "pb1"
    airline := "PB"
    flight_number := "PB200"
    departure_time := 0
    arrival_time := 0
    duration := "3h"
    price := 300
    travel_class := TravelClass.economy
    layovers := []
    source := "providerB"
    booking_url := none }

end TravelPlanner

namespace TravelPlanner

theorem length_dedupByAux_le {α κ : Type} [DecidableEq κ] (key : α → κ) :
    ∀ (seen : List κ) (xs : List α),
      (dedupByAux key seen xs).length ≤ xs.length := by
  intro seen xs
  induction xs generalizing seen with
  | nil => simp [dedupByAux]
  | cons x xs ih =>
    simp only [dedupByAux]
    split
    · exact Nat.le_trans (ih seen) (Nat.le_succ _)
    · simpa using ih (key x :: seen)

theorem mem_of_mem_dedupByAux {α κ : Type} [DecidableEq κ] (key : α → κ) :
    ∀ (seen : List κ) (xs : List α) (g : α),
      g ∈ dedupByAux key seen xs → g ∈ xs := by
  intro seen xs
  induction xs generalizing seen with
  | nil => intro g hg; simp [dedupByAux] at hg
  | cons x xs ih =>
    intro g hg
    simp only [dedupByAux] at hg
    split at hg
    · exact List.mem_cons_of_mem x (ih seen g hg)
    · rcases List.mem_cons.mp hg with h1 | h1
      · exact h1 ▸ List.mem_cons_self x xs
      · exact List.mem_cons_of_mem x (ih (key x :: seen) g h1)

theorem key_notMem_of_mem_dedupByAux {α κ : Type} [DecidableEq κ] (key : α → κ) :
    ∀ (seen : List κ) (xs : List α) (g : α),
      g ∈ dedupByAux key seen xs → key g ∉ seen := by
  intro seen xs
  induction xs generalizing seen with
  | nil => intro g hg; simp [dedupByAux] at hg
  | cons x xs ih =>
    intro g hg
    simp only [dedupByAux] at hg
    split at hg
    · exact ih seen g hg
    · rcases List.mem_cons.mp hg with h1 | h1
      · subst h1; assumption
      · intro hc
        exact ih (key x :: seen) g h1 (List.mem_cons_of_mem _ hc)

theorem countP_dedupByAux_eq_one {α κ : Type} [DecidableEq κ] (key : α → κ) :
    ∀ (seen : List κ) (xs : List α) (x : α), x ∈ xs → key x ∉ seen →
      (dedupByAux key seen xs).countP (fun g => decide (key g = key x)) = 1 := by
  intro seen xs
  induction xs generalizing seen with
  | nil => intro x hx; simp at hx
  | cons y ys ih =>
    intro x hx hns
    simp only [dedupByAux]
    by_cases hy : key y ∈ seen
    · rw [if_pos hy]
      have hxy : x ≠ y := by
        intro e; exact hns (e ▸ hy)
      exact ih seen x ((List.mem_cons.mp hx).resolve_left hxy) hns
    · rw [if_neg hy]
      rw [List.countP_cons]
      by_cases hk : key x = key y
      · have h0 : (dedupByAux key (key y :: seen) ys).countP
            (fun g => decide (key g = key x)) = 0 := by
          rw [List.countP_eq_zero]
          intro g hg
          have hgk := key_notMem_of_mem_dedupByAux key (key y :: seen) ys g hg
          simp only [decide_eq_true_eq]
          intro e
          exact hgk (by rw [e, hk]; exact List.mem_cons_self _ _)
        rw [h0]
        simp [hk]
      · have hxys : x ∈ ys := by
          rcases List.mem_cons.mp hx with h1 | h1
          · exact absurd (h1 ▸ rfl) hk
          · exact h1
        have hns2 : key x ∉ key y :: seen := by
          intro hc
          rcases List.mem_cons.mp hc with h1 | h1
          · exact hk h1
          · exact hns h1
        have := ih (key y :: seen) x hxys hns2
        simp [this, decide_eq_true_eq, Ne.symm hk]

theorem find?_of_mem_dedupByAux {α κ : Type} [DecidableEq κ] (key : α → κ) :
    ∀ (seen : List κ) (xs : List α) (g : α), g ∈ dedupByAux key seen xs →
      xs.find? (fun y => decide (key y = key g)) = some g := by
  intro seen xs
  induction xs generalizing seen with
  | nil => intro g hg; simp [dedupByAux] at hg
  | cons x xs ih =>
    intro g hg
    simp only [dedupByAux] at hg
    by_cases hx : key x ∈ seen
    · rw [if_pos hx] at hg
      have hkg := key_notMem_of_mem_dedupByAux key seen xs g hg
      have hne : decide (key x = key g) = false := by
        simp only [decide_eq_false_iff_not]
        intro e; exact hkg (e ▸ hx)
      simp only [List.find?_cons, hne, cond_false]
      exact ih seen g hg
    · rw [if_neg hx] at hg
      rcases List.mem_cons.mp hg with h1 | h1
      · subst h1
        simp [List.find?_cons]
      · have hkg := key_notMem_of_mem_dedupByAux key (key x :: seen) xs g h1
        have hne : decide (key x = key g) = false := by
          simp only [decide_eq_false_iff_not]
          intro e
          exact hkg (e ▸ List.mem_cons_self _ _)
        simp only [List.find?_cons, hne, cond_false]
        exact ih (key x :: seen) g h1

end TravelPlanner

namespace TravelPlanner

/-- C1 (amended): for both deduplication passes, the output size is at most
the input size and exactly one offer per distinct identity key survives; the
survivor of each group is the first-seen offer in input order, regardless of
price (not the minimum-price offer of the group). -/
theorem dedup_first_seen_per_group (flights : List FlightOption)
    (hotels : List HotelOption) :
    ((deduplicate_flights flights).length ≤ flights.length ∧
      (∀ f ∈ flights, (deduplicate_flights flights).countP
          (fun g => decide (flightKey g = flightKey f)) = 1) ∧
      (∀ g ∈ deduplicate_flights flights,
        flights.find? (fun y => decide (flightKey y = flightKey g)) = some g)) ∧
    ((deduplicate_hotels hotels).length ≤ hotels.length ∧
      (∀ x ∈ hotels, (deduplicate_hotels hotels).countP
          (fun g => decide (hotelKey g = hotelKey x)) = 1) ∧
      (∀ g ∈ deduplicate_hotels hotels,
        hotels.find? (fun y => decide (hotelKey y = hotelKey g)) = some g)) := by
  refine ⟨⟨length_dedupByAux_le flightKey [] flights, fun f hf => ?_, fun g hg => ?_⟩,
          ⟨length_dedupByAux_le hotelKey [] hotels, fun x hx => ?_, fun g hg => ?_⟩⟩
  · exact countP_dedupByAux_eq_one flightKey [] flights f hf (by simp)
  · exact find?_of_mem_dedupByAux flightKey [] flights g hg
  · exact countP_dedupByAux_eq_one hotelKey [] hotels x hx (by simp)
  · exact find?_of_mem_dedupByAux hotelKey [] hotels g hg

/-- C1 counterexample: two offers share the identity key (airline, flight
number) and arrive with prices 450 then 430; deduplication keeps the
first-seen 450 offer, not the minimum-price 430 offer of the group. -/
theorem dedup_keeps_first_not_min_price_cex :
    deduplicate_flights [dupFlightFirst, dupFlightCheaper] = [dupFlightFirst] ∧
    flightKey dupFlightFirst = flightKey dupFlightCheaper ∧
    dupFlightCheaper.price < dupFlightFirst.price := by
  refine ⟨by decide, rfl, by norm_num [dupFlightFirst, dupFlightCheaper]⟩

/-- C2: every combination the search returns fits the budget, and every
feasible flight/hotel pair of the two input lists yields its combination in
the returned list. -/
theorem combination_search_exact_feasible (budget : ℚ)
    (F : List FlightOption) (L : List HotelOption) :
    (∀ c ∈ sorted_combinations budget F L,
        c.total_cost ≤ budget ∧
        c.total_cost = c.flight.price + c.hotel.total_price) ∧
    (∀ f ∈ F, ∀ h ∈ L, f.price + h.total_price ≤ budget →
        mkCombination budget f h ∈ sorted_combinations budget F L) := by
  constructor
  · intro c hc
    rw [sorted_combinations, List.mem_insertionSort, valid_combinations,
      List.mem_flatMap] at hc
    obtain ⟨f, _, hc⟩ := hc
    rw [List.mem_filterMap] at hc
    obtain ⟨h, _, heq⟩ := hc
    by_cases hb : f.price + h.total_price ≤ budget
    · rw [if_pos hb] at heq
      injection heq with heq
      subst heq
      exact ⟨hb, rfl⟩
    · rw [if_neg hb] at heq
      exact absurd heq (by simp)
  · intro f hf h hh hb
    rw [sorted_combinations, List.mem_insertionSort, valid_combinations,
      List.mem_flatMap]
    refine ⟨f, ?_, ?_⟩
    · rw [sortFlightsByPrice, List.mem_insertionSort]
      exact hf
    · rw [List.mem_filterMap]
      refine ⟨h, ?_, ?_⟩
      · rw [sortHotelsByPrice, List.mem_insertionSort]
        exact hh
      · rw [if_pos hb]

/-- C4: the transcription of `_calculate_value_score` coincides with the
spec's value-score formula, over exact rational arithmetic. -/
theorem value_score_formula (f : FlightOption) (h : HotelOption) (r : ℚ) :
    calculate_value_score f h r = spec_value_score f h r := by
  unfold calculate_value_score spec_value_score
  by_cases hl : f.layovers = []
  · rw [hl]
    simp only [List.isEmpty_nil, if_true]
    try ring
  · have hne : f.layovers.isEmpty = false := by
      cases hfl : f.layovers with
      | nil => exact absurd hfl hl
      | cons a l => rfl
    rw [hne]
    simp only [Bool.false_eq_true, if_false, if_neg hl]
    try ring

end TravelPlanner

namespace TravelPlanner

/-- C3 (amended): the combination list is sorted descending by value score;
the sort is stable, so equal scores keep the enumeration order (flights then
hotels, each ascending by price) rather than being re-ordered by total cost or
flight id; the reported top-combinations list is the first 5 of this order. -/
theorem combination_ranking_desc_top5 (budget : ℚ)
    (F : List FlightOption) (L : List HotelOption) :
    List.Sorted scoreDescLE (sorted_combinations budget F L) ∧
    (sorted_combinations budget F L).Perm (valid_combinations budget F L) ∧
    (analyze_options budget F L).top_combinations =
      (sorted_combinations budget F L).take 5 :=
  ⟨List.sorted_insertionSort scoreDescLE (valid_combinations budget F L),
   List.perm_insertionSort scoreDescLE (valid_combinations budget F L),
   rfl⟩

/-- C3 counterexample: at budget 2000 with flights of prices 100 and 140 and
hotels of total prices 100 and 200 chosen so that two combinations tie at
value score 185/3, the sorted list places the cost-300 combination before
the cost-240 one, so the claimed ascending-total-cost tie-break fails. -/
theorem ranking_tie_break_cex :
    ¬ List.Pairwise specCombinationOrder
        (sorted_combinations 2000 [cxFlightA, cxFlightB] [cxHotelA, cxHotelB]) := by
  intro hp
  have hlist : sorted_combinations 2000 [cxFlightA, cxFlightB] [cxHotelA, cxHotelB] =
      [mkCombination 2000 cxFlightA cxHotelA, mkCombination 2000 cxFlightA cxHotelB,
       mkCombination 2000 cxFlightB cxHotelA, mkCombination 2000 cxFlightB cxHotelB] := by
    norm_num [sorted_combinations, valid_combinations, sortFlightsByPrice,
      sortHotelsByPrice, flightPriceLE, hotelPriceLE, scoreDescLE,
      List.insertionSort, List.orderedInsert, List.filterMap_cons, List.filterMap_nil,
      List.flatMap_cons, List.flatMap_nil, mkCombination, calculate_value_score,
      cxFlightA, cxFlightB, cxHotelA, cxHotelB]
  rw [hlist] at hp
  have h12 := (List.pairwise_cons.mp (List.pairwise_cons.mp hp).2).1
      (mkCombination 2000 cxFlightB cxHotelA) (by simp)
  rcases h12 with hlt | ⟨heq, hcost⟩
  · norm_num [mkCombination, calculate_value_score, cxFlightA, cxFlightB,
      cxHotelA, cxHotelB] at hlt
  · rcases hcost with hc | ⟨hc, _⟩ <;>
      norm_num [mkCombination, cxFlightA, cxFlightB, cxHotelA, cxHotelB] at hc

end TravelPlanner

namespace TravelPlanner

/-- C5 evidence: at budget 10, below the only flight+hotel pair's cost, the
analysis produces zero combinations and its recommendation list is exactly the
budget-increase message; but `create_travel_plan` evaluates
`budget_optimization.get("top_combinations", [{}])[0]` whose key is always
present, so indexing the empty list raises `IndexError` (logged and re-raised)
instead of returning a plan with zero combinations. -/
theorem create_plan_zero_combinations_raises :
    create_travel_plan_core 10 [c5Flight] [c5Hotel] =
      Except.error "IndexError: list index out of range" ∧
    (analyze_options 10 [c5Flight] [c5Hotel]).recommendations = [msgNoCombos] ∧
    (analyze_options 10 [c5Flight] [c5Hotel]).total_combinations = 0 := by
  have hv : valid_combinations 10 [c5Flight] [c5Hotel] = [] := by
    norm_num [valid_combinations, sortFlightsByPrice, sortHotelsByPrice,
      List.insertionSort, List.orderedInsert, List.filterMap_cons, List.filterMap_nil,
      List.flatMap_cons, List.flatMap_nil, c5Flight, c5Hotel]
  have hs : sorted_combinations 10 [c5Flight] [c5Hotel] = [] := by
    rw [sorted_combinations, hv]
    rfl
  refine ⟨?_, ?_, ?_⟩
  · rw [create_travel_plan_core]
    simp [analyze_options, hs]
  · rw [analyze_options]
    simp [hs, generate_recommendations]
  · rw [analyze_options]
    simp [hs]

/-- C6 (amended): at the fan-out merge, a failed task slot contributes zero
offers and never prevents the other slots' offers from being collected, for
flights and hotels alike; but the Amadeus client converts its own failure
into its two fabricated mock offers before that merge, so a failing Amadeus
gateway contributes two substitute offers rather than zero. -/
theorem provider_failure_contribution
    (rs1 rs2 : List (Except String (List FlightOption)))
    (qs1 qs2 : List (Except String (List HotelOption)))
    (e1 e2 : String) (d : Int) (t : ℕ) (tc : TravelClass) :
    flight_search_all_providers (rs1 ++ Except.error e1 :: rs2) =
      flight_search_all_providers (rs1 ++ rs2) ∧
    hotel_search_all_providers (qs1 ++ Except.error e2 :: qs2) =
      hotel_search_all_providers (qs1 ++ qs2) ∧
    amadeus_search_flights (Except.error e1) d t tc =
      amadeus_mock_flights d t tc ∧
    (amadeus_mock_flights d t tc).length = 2 := by
  refine ⟨?_, ?_, rfl, rfl⟩
  · rw [flight_search_all_providers, flight_search_all_providers]
    congr 1
    simp [collectResults]
  · rw [hotel_search_all_providers, hotel_search_all_providers]
    congr 1
    simp [collectResults]

/-- C6 counterexample: when the Amadeus fetch fails, the merged
pre-deduplication flight list still contains the two fabricated offers with
source "amadeus", so the failed gateway call contributed two offers, not
zero. -/
theorem amadeus_failure_fabricates_offers_cex :
    ((flight_service_search (Except.error "API failure") 0 1
        TravelClass.economy).filter (fun f => f.source == "amadeus")).length = 2 ∧
    flight_service_search (Except.error "API failure") 0 1 TravelClass.economy ≠
      skyscanner_search_flights 0 1 TravelClass.economy := by
  have hperm : (flight_service_search (Except.error "API failure") 0 1
      TravelClass.economy).Perm
      (amadeus_mock_flights 0 1 TravelClass.economy ++
        skyscanner_mock_flights 0 1 TravelClass.economy) := by
    rw [flight_service_search, flight_search_all_providers]
    have hp := List.perm_insertionSort flightPriceLE
      (collectResults
        [Except.ok (amadeus_search_flights (Except.error "API failure") 0 1
            TravelClass.economy),
         Except.ok (skyscanner_search_flights 0 1 TravelClass.economy)])
    simpa [collectResults, amadeus_search_flights, skyscanner_search_flights]
      using hp
  constructor
  · have hf := hperm.filter (fun f => f.source == "amadeus")
    rw [hf.length_eq]
    decide
  · intro hcon
    have hlen := congrArg List.length hcon
    rw [hperm.length_eq] at hlen
    simp [amadeus_mock_flights, skyscanner_mock_flights,
      skyscanner_search_flights] at hlen

/-- C7 (amended): the budget agent's breakdown consists of exactly the four
claimed components (40%, 45%, 10%, 5% of the budget) and sums to the whole
budget; the planner agent's `_extract_budget_breakdown`, however, returns
three components (flights 40%, hotels 45%, activities 15%), which also sum to
the whole budget. -/
theorem budget_breakdown_components (b : ℚ) (r : String) :
    calculate_budget_breakdown b =
      [("flights", b * 0.4), ("hotels", b * 0.45),
       ("activities", b * 0.10), ("contingency", b * 0.05)] ∧
    ((calculate_budget_breakdown b).map Prod.snd).sum = b ∧
    extract_budget_breakdown r b =
      [("flights", b * 0.4), ("hotels", b * 0.45), ("activities", b * 0.15)] ∧
    ((extract_budget_breakdown r b).map Prod.snd).sum = b := by
  refine ⟨rfl, ?_, rfl, ?_⟩
  · simp only [calculate_budget_breakdown, List.map_cons, List.map_nil,
      List.sum_cons, List.sum_nil]
    ring
  · simp only [extract_budget_breakdown, List.map_cons, List.map_nil,
      List.sum_cons, List.sum_nil]
    ring

/-- C7 counterexample: at budget 100 the planner agent's breakdown is not the
four-component list the claim describes (it has three entries and no
"contingency" key). -/
theorem planner_breakdown_not_four_components_cex :
    extract_budget_breakdown "" 100 ≠
      [("flights", (100 : ℚ) * 0.4), ("hotels", (100 : ℚ) * 0.45),
       ("activities", (100 : ℚ) * 0.10), ("contingency", (100 : ℚ) * 0.05)] := by
  intro hcon
  have := congrArg List.length hcon
  simp [extract_budget_breakdown] at this

/-- C8: with at least one combination, the recommendation list is exactly the
fixed-order concatenation of the three conditional recommendations (upgrade
iff utilization < 70, allocation iff remaining budget > 200, limited options
iff fewer than 3 combinations, judged on the rank-0 combination) followed by
the three fixed general-advice strings. -/
theorem recommendations_fixed_rules (best : Combination)
    (rest : List Combination) (b : ℚ) :
    generate_recommendations (best :: rest) b =
      (if best.budget_utilization < 70 then [msgUpgrade] else []) ++
        ((if best.remaining_budget > 200 then [msgAllocate] else []) ++
          ((if (best :: rest).length < 3 then [msgLimited] else []) ++
            [msgBookAhead, msgPackageDeals, msgSeasonal])) := by
  simp only [generate_recommendations]
  split_ifs <;> simp

end TravelPlanner

namespace TravelPlanner

/-- C9 (amended): the merged pre-deduplication list is the registration-order
concatenation of the per-provider lists, stably re-sorted ascending by price;
as a pure function of the per-provider result slots it is independent of
completion order. -/
theorem merged_list_is_sorted_concat
    (rsF : List (Except String (List FlightOption)))
    (rsH : List (Except String (List HotelOption))) :
    (flight_search_all_providers rsF).Perm (collectResults rsF) ∧
    List.Sorted flightPriceLE (flight_search_all_providers rsF) ∧
    (hotel_search_all_providers rsH).Perm (collectResults rsH) ∧
    List.Sorted hotelPriceLE (hotel_search_all_providers rsH) :=
  ⟨List.perm_insertionSort flightPriceLE (collectResults rsF),
   List.sorted_insertionSort flightPriceLE (collectResults rsF),
   List.perm_insertionSort hotelPriceLE (collectResults rsH),
   List.sorted_insertionSort hotelPriceLE (collectResults rsH)⟩

/-- C9 counterexample: with a price-500 offer from the first registered
provider and a price-300 offer from the second, the merged list is the
price-sorted [300, 500] and not the registration-order concatenation
[500, 300]. -/
theorem merged_not_registration_concat_cex :
    flight_search_all_providers
        [Except.ok [cxProvAFlight], Except.ok [cxProvBFlight]] ≠
      collectResults [Except.ok [cxProvAFlight], Except.ok [cxProvBFlight]] ∧
    flight_search_all_providers
        [Except.ok [cxProvAFlight], Except.ok [cxProvBFlight]] =
      [cxProvBFlight, cxProvAFlight] := by
  have hres : flight_search_all_providers
      [Except.ok [cxProvAFlight], Except.ok [cxProvBFlight]] =
      [cxProvBFlight, cxProvAFlight] := by
    norm_num [flight_search_all_providers, collectResults, List.flatMap_cons,
      List.flatMap_nil, List.insertionSort, List.orderedInsert, flightPriceLE,
      cxProvAFlight, cxProvBFlight]
  refine ⟨?_, hres⟩
  intro hcon
  rw [hres] at hcon
  have : cxProvBFlight = cxProvAFlight := by
    have := congrArg (fun l => l.head?) hcon
    simpa [collectResults] using this
  have hprice := congrArg FlightOption.price this
  norm_num [cxProvAFlight, cxProvBFlight] at hprice

theorem length_flatMap_le_mul {α β : Type} (l : List α) (g : α → List β) (m : ℕ)
    (hm : ∀ a, (g a).length ≤ m) : (l.flatMap g).length ≤ l.length * m := by
  induction l with
  | nil => simp
  | cons x xs ih =>
    simp only [List.flatMap_cons, List.length_append, List.length_cons]
    calc (g x).length + (xs.flatMap g).length
        ≤ m + xs.length * m := Nat.add_le_add (hm x) ih
      _ = (xs.length + 1) * m := by ring

theorem length_valid_combinations_le (budget : ℚ) (F : List FlightOption)
    (L : List HotelOption) :
    (valid_combinations budget F L).length ≤ F.length * L.length := by
  have hb : ∀ f : FlightOption,
      ((sortHotelsByPrice L).filterMap fun h =>
        if f.price + h.total_price ≤ budget then some (mkCombination budget f h)
        else none).length ≤ L.length := by
    intro f
    calc ((sortHotelsByPrice L).filterMap fun h =>
          if f.price + h.total_price ≤ budget then some (mkCombination budget f h)
          else none).length
        ≤ (sortHotelsByPrice L).length := List.length_filterMap_le _ _
      _ = L.length := by simp [sortHotelsByPrice]
  calc (valid_combinations budget F L).length
      ≤ (sortFlightsByPrice F).length * L.length := by
        rw [valid_combinations]
        exact length_flatMap_le_mul (sortFlightsByPrice F) _ L.length hb
    _ = F.length * L.length := by simp [sortFlightsByPrice]

/-- C10: the flight and hotel option lists placed into the plan are the first
10 offers of the deduplicated merged lists, so each has at most 10 entries,
the combination search enumerates at most 10 * 10 = 100 pairs over them, and
in particular returns at most 100 combinations. -/
theorem plan_option_lists_capped (af ef : List FlightOption)
    (ah eh : List HotelOption) (budget : ℚ) :
    (search_flights_core af ef).length ≤ 10 ∧
    (search_hotels_core ah eh).length ≤ 10 ∧
    (search_flights_core af ef).length * (search_hotels_core ah eh).length ≤ 100 ∧
    (valid_combinations budget (search_flights_core af ef)
        (search_hotels_core ah eh)).length ≤ 100 := by
  have h1 : (search_flights_core af ef).length ≤ 10 := by
    rw [search_flights_core, List.length_take]
    exact min_le_left _ _
  have h2 : (search_hotels_core ah eh).length ≤ 10 := by
    rw [search_hotels_core, List.length_take]
    exact min_le_left _ _
  have h3 : (search_flights_core af ef).length *
      (search_hotels_core ah eh).length ≤ 100 := by
    calc (search_flights_core af ef).length * (search_hotels_core ah eh).length
        ≤ 10 * 10 := Nat.mul_le_mul h1 h2
      _ = 100 := by norm_num
  exact ⟨h1, h2, h3, le_trans (length_valid_combinations_le _ _ _) h3⟩

end TravelPlanner
